import Mathlib

/-!
Verification development for the paint-mixing-plant simulator
(`src/simulator.py` and the device-server layer `src/PaintMixingStation.py`).

The Python code is shallowly embedded: Python floats become `ℚ` (every
computation the claims touch is exact decimal arithmetic), Python lists
become `List`, the insertion-ordered `dict` of alarms becomes an
association list kept in insertion order, and every call to `random()`,
`getrandbits(1)` or `time.localtime()` is threaded in explicitly through
an `Oracle` record, one fresh field per call site of one tick.
Fallible operations (Python code that can raise) return `Option`.
-/

/-- Timestamps in the source are `time.localtime()[1:6]`, the 5-tuple
(month, day, hour, minute, second). Their values are opaque data to every
algorithm of the simulator, so they are embedded as a record of the five
components. -/
structure Timestamp where
  month : ℕ
  day : ℕ
  hour : ℕ
  minute : ℕ
  second : ℕ
deriving DecidableEq, Inhabited

/-- The tank's `self.alarms` dict: key = alarm code, value = timestamp of
first observation. Python dicts preserve insertion order, which is what
`get_alarms` iterates in, so the embedding is an insertion-ordered
association list. -/
abbrev AlarmMap := List (ℕ × Timestamp)

/-- Membership test `code in self.alarms`. -/
def alarmsContains (a : AlarmMap) (k : ℕ) : Bool :=
  a.any (fun p => p.1 == k)

/-- The idiom `if code not in self.alarms: self.alarms[code] = ts`:
append the entry when the code is absent, keep the map unchanged (old
timestamp kept) when present. -/
def alarmsSet (a : AlarmMap) (k : ℕ) (ts : Timestamp) : AlarmMap :=
  if alarmsContains a k then a else a ++ [(k, ts)]

/-- The statement `del self.alarms[code]`. -/
def alarmsDel (a : AlarmMap) (k : ℕ) : AlarmMap :=
  a.filter (fun p => !(p.1 == k))

/-- PaintMixture (simulator.py line 47): a blend of five pigment volumes. -/
structure PaintMixture where
  cyan : ℚ
  magenta : ℚ
  yellow : ℚ
  black : ℚ
  white : ℚ
deriving DecidableEq, Inhabited

/-- The default constructor `PaintMixture()`: all five components zero. -/
def PaintMixture.empty : PaintMixture := ⟨0, 0, 0, 0, 0⟩

/-- The `volume` property: sum of the five components. -/
def PaintMixture.volume (p : PaintMixture) : ℚ :=
  p.cyan + p.magenta + p.yellow + p.black + p.white

/-- `__add__`: componentwise sum. -/
def PaintMixture.add (p b : PaintMixture) : PaintMixture :=
  ⟨p.cyan + b.cyan, p.magenta + b.magenta, p.yellow + b.yellow,
   p.black + b.black, p.white + b.white⟩

/-- `__sub__`: componentwise difference. -/
def PaintMixture.sub (p b : PaintMixture) : PaintMixture :=
  ⟨p.cyan - b.cyan, p.magenta - b.magenta, p.yellow - b.yellow,
   p.black - b.black, p.white - b.white⟩

/-- `__mul__`: componentwise scaling by a factor. -/
def PaintMixture.scale (p : PaintMixture) (b : ℚ) : PaintMixture :=
  ⟨p.cyan * b, p.magenta * b, p.yellow * b, p.black * b, p.white * b⟩

/-- TANK_VOLUME (line 9). -/
def TANK_VOLUME : ℚ := 100

/-- TANK_OUTFLOW (line 10). -/
def TANK_OUTFLOW : ℚ := 2

/-- BASIN_VOLUME (line 11). -/
def BASIN_VOLUME : ℚ := 500

/-- BASIN_OUTFLOW (line 12). -/
def BASIN_OUTFLOW : ℚ := 5

/-- TANK_VERY_LOW = 0.1*TANK_VOLUME (line 15). -/
def TANK_VERY_LOW : ℚ := (0.1 : ℚ) * TANK_VOLUME

/-- TANK_LOW = 0.2*TANK_VOLUME (line 16). -/
def TANK_LOW : ℚ := (0.2 : ℚ) * TANK_VOLUME

/-- TANK_HIGH = 0.8*TANK_VOLUME (line 17). -/
def TANK_HIGH : ℚ := (0.8 : ℚ) * TANK_VOLUME

/-- TANK_VERY_HIGH = 0.9*TANK_VOLUME (line 18). -/
def TANK_VERY_HIGH : ℚ := (0.9 : ℚ) * TANK_VOLUME

/-- DEFAULT_LEVELS (line 19). -/
def DEFAULT_LEVELS : List ℚ := [TANK_VERY_LOW, TANK_LOW, TANK_HIGH, TANK_VERY_HIGH]

/-- The keys of the DEFAULT_BREAK_PROBS dict (lines 22-31), in insertion
order, which is the order `simulate_timestep` iterates the dict in. -/
def BREAK_KEYS : List String :=
  ["level_sensor", "vl_sensor", "l_sensor", "h_sensor", "vh_sensor",
   "outflow_sensor", "color_sensor", "valve_actuator", "fill_actuator",
   "flush_actuator"]

/-- DEFAULT_BREAK_PROBS as a map: every one of the ten keys carries the
same value 0.0001 in the source dict. -/
def DEFAULT_BREAK_PROBS (_k : String) : ℚ := (0.0001 : ℚ)

/-- DEFAULT_ALARM_DEFS (lines 34-45): alarm code to descriptive text. -/
def DEFAULT_ALARM_DEFS (k : ℕ) : String :=
  if k = 1 then "The tank is leaking"
  else if k = 2 then "Uncontrolled inflow to tank"
  else if k = 3 then "Level stagnation"
  else if k = 4 then "Level conflict: very high"
  else if k = 5 then "Level conflict: high"
  else if k = 6 then "Level conflict: low"
  else if k = 7 then "Level conflict: very low"
  else if k = 8 then "The tank is empty"
  else if k = 9 then "The tank level is very low"
  else if k = 10 then "The tank level is low"
  else if k = 11 then "The tank level is very high"
  else if k = 12 then "The tank is currently emptying"
  else ""

/-- One tick's worth of environment input for one tank: a fresh field for
each call to `random()` / `getrandbits(1)` / `time.localtime()` that one
`simulate_timestep` can make, plus the uniform draws of the fault-injection
loop (one per break-probability key). -/
structure Oracle where
  rLevel : ℚ
  rLevelVl : ℚ
  rLevelL : ℚ
  rLevelH : ℚ
  rLevelVh : ℚ
  bitVl : Bool
  bitL : Bool
  bitH : Bool
  bitVh : Bool
  rValve : ℚ
  rLevelStore : ℚ
  rValveStore : ℚ
  breakDraw : String → ℚ
  ts : Timestamp
deriving Inhabited

/-- PaintTank (line 118): the per-tank mutable state. The Python object
also holds `connected_to` (a reference to the downstream tank) and, for
the mixer, `connected_from` (references to the five upstream tanks); those
references are owned by the network and are embedded at the `SimState`
level, where the flow and the upstream alarm lists are wired explicitly. -/
structure PaintTank where
  name : String
  tank_volume : ℚ
  outflow_rate : ℚ
  initial_paint : PaintMixture
  paint : PaintMixture
  valve_ratio : ℚ
  outflow : ℚ
  level_history : List (Option Timestamp × ℚ)
  valve_history : List (Option Timestamp × ℚ)
  very_low_ref : ℚ
  low_ref : ℚ
  high_ref : ℚ
  very_high_ref : ℚ
  errors : List String
  alarms : AlarmMap
deriving DecidableEq, Inhabited

/-- PaintTank.__init__ (lines 122-175) as called by this repository: every
construction passes level_refs=None, break_probs=None, alarm_defs=None, so
the reference levels are DEFAULT_LEVELS, the break probabilities are
DEFAULT_BREAK_PROBS (a fixed global, embedded as the constant above) and
the alarm texts DEFAULT_ALARM_DEFS. The history entry `(False, 0)` is
embedded `(none, 0)`; the seeded last level entry gets the construction
timestamp `ts0`. -/
def PaintTank.construct (name : String) (volume outflow_rate0 : ℚ)
    (paint : PaintMixture) (ts0 : Timestamp) : PaintTank :=
  { name := name
    tank_volume := volume
    outflow_rate := outflow_rate0
    initial_paint := paint
    paint := paint
    valve_ratio := 0
    outflow := 0
    level_history :=
      List.replicate 119 ((none : Option Timestamp), (0 : ℚ))
        ++ [(some ts0, paint.volume / volume)]
    valve_history := List.replicate 120 ((none : Option Timestamp), (0 : ℚ))
    very_low_ref := DEFAULT_LEVELS.getD 0 0
    low_ref := DEFAULT_LEVELS.getD 1 0
    high_ref := DEFAULT_LEVELS.getD 2 0
    very_high_ref := DEFAULT_LEVELS.getD 3 0
    errors := []
    alarms := [] }

/-- PaintTank.add (line 177): `self.paint += inflow`. -/
def PaintTank.add (t : PaintTank) (inflow : PaintMixture) : PaintTank :=
  { t with paint := t.paint.add inflow }

/-- PaintTank.fill (lines 184-192). The outer `Option` is the call's
outcome: `none` embeds the uncaught `ZeroDivisionError` raised by
`level * self.tank_volume / self.initial_paint.volume` when the tank's
initial mixture has volume 0 and the fill actuator is not broken. The
inner `Option ℚ` is the Python return value: the function body has no
`return` statement, so a completed call returns Python `None`, embedded
as the inner `none`. -/
def PaintTank.fill (t : PaintTank) (level : ℚ) : Option (PaintTank × Option ℚ) :=
  if "fill_actuator" ∉ t.errors then
    if t.initial_paint.volume = 0 then none
    else
      some ({ t with
              paint := t.initial_paint.scale (level * t.tank_volume / t.initial_paint.volume) },
            none)
  else some (t, none)

/-- PaintTank.flush (lines 194-202). As with `fill`, the body has no
`return` statement, so the second component (the Python return value) is
`none`. -/
def PaintTank.flush (t : PaintTank) : PaintTank × Option ℚ :=
  if "flush_actuator" ∉ t.errors then ({ t with paint := PaintMixture.empty }, none)
  else (t, none)

/-- PaintTank.get_level (lines 204-215); `r` is the `random()` draw used
when the level sensor is broken. -/
def PaintTank.get_level (t : PaintTank) (r : ℚ) : ℚ :=
  if "level_sensor" ∉ t.errors then t.paint.volume / t.tank_volume else r

/-- PaintTank.get_valve (lines 217-228); `r` is the `random()` draw used
when the valve actuator is broken. -/
def PaintTank.get_valve (t : PaintTank) (r : ℚ) : ℚ :=
  if "valve_actuator" ∉ t.errors then t.valve_ratio else r

/-- PaintTank.set_valve (lines 230-240): clamps into [0,1] unless the
valve actuator is broken, in which case it is a no-op. -/
def PaintTank.set_valve (t : PaintTank) ( ratio : ℚ) : PaintTank :=
  if "valve_actuator" ∉ t.errors then
    { t with valve_ratio := min 1 (max 0 ratio) }
  else t

/-- PaintTank.get_outflow (lines 242-252); `r` is the `random()` draw used
when the outflow sensor is broken. -/
def PaintTank.get_outflow (t : PaintTank) (r : ℚ) : ℚ :=
  if "outflow_sensor" ∉ t.errors then t.outflow else t.outflow_rate * r

/-- PaintTank.get_vl_readout (lines 284-296): with a working "vl_sensor"
the readout is False when `self.get_level() > self.very_low_ref` and True
otherwise; with a broken one it is `bool(getrandbits(1))`, the drawn bit
`b`. `r` feeds the inner `get_level` call. -/
def PaintTank.get_vl_readout (t : PaintTank) (r : ℚ) (b : Bool) : Bool :=
  if "vl_sensor" ∉ t.errors then
    if t.get_level r > t.very_low_ref then false else true
  else b

/-- PaintTank.get_l_readout (lines 298-310). -/
def PaintTank.get_l_readout (t : PaintTank) (r : ℚ) (b : Bool) : Bool :=
  if "l_sensor" ∉ t.errors then
    if t.get_level r > t.low_ref then false else true
  else b

/-- PaintTank.get_h_readout (lines 312-324). -/
def PaintTank.get_h_readout (t : PaintTank) (r : ℚ) (b : Bool) : Bool :=
  if "h_sensor" ∉ t.errors then
    if t.get_level r > t.high_ref then true else false
  else b

/-- PaintTank.get_vh_readout (lines 326-338). Note: the source guards this
readout with `if "h_sensor" not in self.errors` — the high sensor's error
key, not `"vh_sensor"` — so the embedding does the same. -/
def PaintTank.get_vh_readout (t : PaintTank) (r : ℚ) (b : Bool) : Bool :=
  if "h_sensor" ∉ t.errors then
    if t.get_level r > t.very_high_ref then true else false
  else b

/-- PaintTank.get_alarms (lines 340-347). The loop body reads
`self.DEFAULT_ALARM_DEFS[keys]`, but no attribute of that name is ever
assigned on a PaintTank instance or on the class (the constructor stores
the dict in `self.alarm_definitions`), and `DEFAULT_ALARM_DEFS` is a
module-level global, which Python attribute lookup does not fall back to.
The first loop iteration therefore raises `AttributeError`; a call
completes (returning the empty string accumulator) only when the alarms
dict is empty and the loop body never runs. `none` embeds the uncaught
exception. -/
def PaintTank.get_alarms (t : PaintTank) : Option String :=
  if t.alarms.isEmpty then some "" else none

/-- The list `read_level_sensors` returns (lines 349-354):
`[get_level(), get_vl_readout(), get_l_readout(), get_h_readout(),
get_vh_readout()]`. The Python list is heterogeneous (index 0 a float,
indices 1-4 booleans), so it is embedded as a record; `level` is index 0,
`vl`/`l`/`h`/`vh` are indices 1-4. -/
structure LevelReadouts where
  level : ℚ
  vl : Bool
  l : Bool
  h : Bool
  vh : Bool
deriving DecidableEq

/-- PaintTank.read_level_sensors (lines 349-354). Each of the five sensor
calls draws its own randomness from the oracle (the four binary readouts
each call `get_level()` again internally). -/
def PaintTank.read_level_sensors (t : PaintTank) (o : Oracle) : LevelReadouts :=
  { level := t.get_level o.rLevel
    vl := t.get_vl_readout o.rLevelVl o.bitVl
    l := t.get_l_readout o.rLevelL o.bitL
    h := t.get_h_readout o.rLevelH o.bitH
    vh := t.get_vh_readout o.rLevelVh o.bitVh }

/-- PaintTank.update_level_ref_alarms (lines 356-398), acting on an
explicit alarms map. Each `return` in the source is a branch that yields
the map unchanged past the set it just did; each `elif`-clear runs only
when the matching set-branch did not fire, after which control falls
through to the next check. -/
def update_level_ref_alarms (name : String) (lr : LevelReadouts) (ts : Timestamp)
    (alarms : AlarmMap) : AlarmMap :=
  if lr.vh = true ∧ name = "mixer" then
    alarmsSet alarms 11 ts
  else
    let a1 := if alarmsContains alarms 11 = true ∧ name = "mixer" then
                alarmsDel alarms 11 else alarms
    if lr.level = 0 then
      alarmsSet a1 8 ts
    else
      let a2 := if alarmsContains a1 8 = true then alarmsDel a1 8 else a1
      if lr.vl = true ∧ ¬name = "mixer" then
        alarmsSet a2 9 ts
      else
        let a3 := if alarmsContains a2 9 = true ∧ ¬name = "mixer" then
                    alarmsDel a2 9 else a2
        if lr.l = true ∧ ¬name = "mixer" then
          alarmsSet a3 10 ts
        else
          if alarmsContains a3 10 = true ∧ ¬name = "mixer" then
            alarmsDel a3 10 else a3

/-- One iteration of the `for tank_obj in self.connected_from` loop in
update_level_conflict_alarms (lines 416-421): `up` is the iterated
upstream tank's alarms map, `a` the mixer's map so far. -/
def inflowLoopBody (ts : Timestamp) (a : AlarmMap) (up : AlarmMap) : AlarmMap :=
  if alarmsContains up 1 = true ∧ alarmsContains a 2 = false then
    a ++ [(2, ts)]
  else if alarmsContains a 2 = true then
    alarmsDel a 2
  else a

/-- PaintTank.update_level_conflict_alarms (lines 400-450), acting on an
explicit alarms map. `historyZero` is `self.level_history[0][1]`;
`upstream` is the list of `tank_obj.alarms` maps of `self.connected_from`
in network order (cyan, magenta, yellow, black, white), consulted only
when the tank is the mixer, exactly as in the source. -/
def update_level_conflict_alarms (name : String) (historyZero : ℚ)
    (vlRef lRef hRef vhRef : ℚ) (upstream : List AlarmMap)
    (lr : LevelReadouts) (cv : ℚ) (ts : Timestamp) (alarms : AlarmMap) : AlarmMap :=
  let a1 := if cv > 0 ∧ lr.level ≥ historyZero then alarmsSet alarms 3 ts
            else if alarmsContains alarms 3 = true then alarmsDel alarms 3
            else alarms
  let a2 := if name = "mixer" then upstream.foldl (inflowLoopBody ts) a1 else a1
  if lr.level > vhRef ∧ lr.vh = false then alarmsSet a2 4 ts
  else if alarmsContains a2 4 = true then alarmsDel a2 4
  else if lr.level > hRef ∧ lr.h = false then alarmsSet a2 5 ts
  else if alarmsContains a2 5 = true then alarmsDel a2 5
  else if lr.level < lRef ∧ lr.l = false then alarmsSet a2 6 ts
  else if alarmsContains a2 6 = true then alarmsDel a2 6
  else if lr.level < vlRef ∧ lr.vl = false then alarmsSet a2 7 ts
  else if alarmsContains a2 7 = true then alarmsDel a2 7
  else a2

/-- PaintTank.update_alarms (lines 452-483): reads the sensors once, then
runs the leak check (alarm 1), the conflict checks, the reference-level
checks and the emptying check (alarm 12), in that order, each on the map
the previous one produced. Returns the tank's new alarms map. -/
def PaintTank.update_alarms (t : PaintTank) (o : Oracle)
    (upstream : List AlarmMap) : AlarmMap :=
  let lr := t.read_level_sensors o
  let cv := t.get_valve o.rValve
  let historyZero := (t.level_history.headI).2
  let a1 := if lr.level < historyZero ∧ cv = 0 then alarmsSet t.alarms 1 o.ts
            else if alarmsContains t.alarms 1 = true then alarmsDel t.alarms 1
            else t.alarms
  let a2 := update_level_conflict_alarms t.name historyZero
              t.very_low_ref t.low_ref t.high_ref t.very_high_ref
              upstream lr cv o.ts a1
  let a3 := update_level_ref_alarms t.name lr o.ts a2
  if cv > 0 ∧ lr.level > 0 then alarmsSet a3 12 o.ts
  else if alarmsContains a3 12 = true then alarmsDel a3 12
  else a3

/-- PaintTank.update_storage (lines 485-493): pop the oldest entry of each
history, append the current (timestamp, reading) pair. The stored level
and valve values are fresh sensor calls with their own randomness. -/
def PaintTank.update_storage (t : PaintTank) (o : Oracle) : PaintTank :=
  { t with
    level_history := t.level_history.tail ++ [(some o.ts, t.get_level o.rLevelStore)]
    valve_history := t.valve_history.tail ++ [(some o.ts, t.get_valve o.rValveStore)] }

/-- The fault-injection loop at the top of simulate_timestep (lines
500-504): for each key of DEFAULT_BREAK_PROBS in dict order, if the key is
not yet broken and its probability exceeds the uniform draw for that key,
append it to the errors list. -/
def inject_faults (errors : List String) (draw : String → ℚ) : List String :=
  BREAK_KEYS.foldl
    (fun es k => if k ∉ es ∧ DEFAULT_BREAK_PROBS k > draw k then es ++ [k] else es)
    errors

/-- The volume simulate_timestep sends out (line 507):
`self.valve_ratio * self.outflow_rate * interval`. -/
def outflowVolume (t : PaintTank) (interval : ℚ) : ℚ :=
  t.valve_ratio * t.outflow_rate * interval

/-- The outgoing mixture `out` of simulate_timestep (lines 508-515). -/
def outMixture (t : PaintTank) (interval : ℚ) : PaintMixture :=
  if outflowVolume t interval ≥ t.paint.volume then t.paint
  else t.paint.scale (outflowVolume t interval / t.paint.volume)

/-- The tank contents after the outflow of simulate_timestep
(lines 508-515). -/
def paintAfterOut (t : PaintTank) (interval : ℚ) : PaintMixture :=
  if outflowVolume t interval ≥ t.paint.volume then PaintMixture.empty
  else t.paint.sub (t.paint.scale (outflowVolume t interval / t.paint.volume))

/-- The tank contents after the overflow clamp of simulate_timestep
(lines 524-527). -/
def paintAfterClamp (t : PaintTank) (interval : ℚ) : PaintMixture :=
  if (paintAfterOut t interval).volume > t.tank_volume then
    (paintAfterOut t interval).scale (t.tank_volume / (paintAfterOut t interval).volume)
  else paintAfterOut t interval

/-- The tank state after fault injection, outflow and clamp, before the
alarm and storage updates of simulate_timestep. -/
def postPhysics (t : PaintTank) (interval : ℚ) (o : Oracle) : PaintTank :=
  { t with
    errors := inject_faults t.errors o.breakDraw
    paint := paintAfterClamp t interval
    outflow := (outMixture t interval).volume }

/-- PaintTank.simulate_timestep (lines 495-536): fault injection, outflow
physics, overflow clamp, alarm update, storage update. Returns the new
tank state and the outgoing mixture `out`; feeding `out` into
`connected_to` is done by the network (`SimState.simulate`), which also
supplies `upstream`, the alarms maps of `connected_from` (only consulted
when the tank is the mixer). The source's if/else assigns `out` and
`self.paint` under one test `outgoing_volume >= self.paint.volume`; here
the two assigned values are two conditionals on that same test, and the
overflow clamp likewise becomes a conditional on the post-outflow
mixture. -/
def PaintTank.simulate_timestep (t0 : PaintTank) (interval : ℚ) (o : Oracle)
    (upstream : List AlarmMap) : PaintTank × PaintMixture :=
  let t3 : PaintTank := postPhysics t0 interval o
  let t4 : PaintTank := { t3 with alarms := t3.update_alarms o upstream }
  (t4.update_storage o, outMixture t0 interval)

/-- The network state owned by Simulator (lines 539-569): the five source
tanks in list order (cyan, magenta, yellow, black, white), the mixer, and
the simulation clock. In the source the mixer also appears as the last
entry of `self.tanks` and is the `connected_to` of every source;
`SimState.tanks` reconstructs that list. -/
structure SimState where
  sources : List PaintTank
  mixer : PaintTank
  sim_time : ℚ

/-- The `self.tanks` list: the five sources followed by the mixer. -/
def SimState.tanks (s : SimState) : List PaintTank :=
  s.sources ++ [s.mixer]

/-- Simulator.__init__ (lines 544-569): the mixer starts empty; each
source starts full of its pure pigment; all valves closed; sim_time 0.
`ts0` is the construction-time `time.localtime()[1:6]`. -/
def Simulator.construct (ts0 : Timestamp) : SimState :=
  { sources :=
      [PaintTank.construct "cyan" TANK_VOLUME TANK_OUTFLOW ⟨TANK_VOLUME, 0, 0, 0, 0⟩ ts0,
       PaintTank.construct "magenta" TANK_VOLUME TANK_OUTFLOW ⟨0, TANK_VOLUME, 0, 0, 0⟩ ts0,
       PaintTank.construct "yellow" TANK_VOLUME TANK_OUTFLOW ⟨0, 0, TANK_VOLUME, 0, 0⟩ ts0,
       PaintTank.construct "black" TANK_VOLUME TANK_OUTFLOW ⟨0, 0, 0, TANK_VOLUME, 0⟩ ts0,
       PaintTank.construct "white" TANK_VOLUME TANK_OUTFLOW ⟨0, 0, 0, 0, TANK_VOLUME⟩ ts0]
    mixer := PaintTank.construct "mixer" BASIN_VOLUME BASIN_OUTFLOW PaintMixture.empty ts0
    sim_time := 0 }

/-- The walk over the source tanks inside Simulator.simulate (lines
578-586): each source runs its timestep and its outgoing mixture is added
to the mixer at once (`self.connected_to.add(out)` inside the source's
timestep), before the next source runs. `os` supplies one oracle per
source (`headI`/`tail` threading). Returns the updated sources and the
mixer with all inflow added, before the mixer's own timestep. -/
def simulateSources (interval : ℚ) :
    List PaintTank → List Oracle → PaintTank → List PaintTank × PaintTank
  | [], _, mixer => ([], mixer)
  | t :: rest, os, mixer =>
    let so := t.simulate_timestep interval os.headI []
    let next := simulateSources interval rest os.tail (mixer.add so.2)
    (so.1 :: next.1, next.2)

/-- Simulator.simulate (lines 578-586): one tick of the whole plant. The
tank list is walked in order, sources first, the mixer last; by the time
the mixer's own timestep runs, the sources' alarms maps have already been
updated this tick, and those updated maps are what its
`connected_from` loop reads. The mixer's own outgoing mixture is
discarded (its `connected_to` is None). -/
def SimState.simulate (s : SimState) (interval : ℚ) (os : List Oracle)
    (om : Oracle) : SimState :=
  let srcStep := simulateSources interval s.sources os s.mixer
  let mixStep := srcStep.2.simulate_timestep interval om (srcStep.1.map PaintTank.alarms)
  { sources := srcStep.1, mixer := mixStep.1, sim_time := s.sim_time + interval }

/-- The public operations an external caller (the device server or the
GUI) can invoke between ticks, plus the tick itself. The tank index `i`
addresses `tanks[i]` (0-4 the sources, 5 the mixer), standing for the
direct object reference those callers hold. -/
inductive Event where
  | tick (interval : ℚ) (os : List Oracle) (om : Oracle)
  | setValve (i : ℕ) (x : ℚ)
  | fill (i : ℕ) (level : ℚ)
  | flush (i : ℕ)

/-- Apply a per-tank operation to `tanks[i]`; `none` when the index names
no tank or the operation itself raises. -/
def SimState.applyTank (s : SimState) (i : ℕ)
    (f : PaintTank → Option PaintTank) : Option SimState :=
  if h : i < s.sources.length then
    (f (s.sources.get ⟨i, h⟩)).map (fun t => { s with sources := s.sources.set i t })
  else if i = s.sources.length then
    (f s.mixer).map (fun m => { s with mixer := m })
  else none

/-- One step of a run: a tick or one public mutator call. The Python
return values of fill/flush are discarded here (`Prod.fst`); a `none`
embeds an uncaught exception (only `fill` on a tank with an empty initial
mixture) or a bad tank index. -/
def SimState.step (s : SimState) : Event → Option SimState
  | .tick interval os om => some (s.simulate interval os om)
  | .setValve i x => s.applyTank i (fun t => some (t.set_valve x))
  | .fill i level => s.applyTank i (fun t => (t.fill level).map Prod.fst)
  | .flush i => s.applyTank i (fun t => some (t.flush).1)

/-- Run a sequence of events from a state; `none` as soon as one step
raises. -/
def SimState.run (s : SimState) : List Event → Option SimState
  | [] => some s
  | e :: es =>
    match s.step e with
    | some s2 => s2.run es
    | none => none

/-- How many ticks a run performs. -/
def tickCount : List Event → ℕ
  | [] => 0
  | Event.tick _ _ _ :: es => tickCount es + 1
  | _ :: es => tickCount es

/-- A value `random()` can return: uniform draws lie in [0, 1). -/
def unitRange (x : ℚ) : Prop := 0 ≤ x ∧ x < 1

/-- An oracle is valid when every stand-in for a `random()` draw lies in
[0, 1), as the Python library guarantees. The break draws and the
`getrandbits` bits are unconstrained (any fault pattern and any random
boolean may occur). -/
def Oracle.Valid (o : Oracle) : Prop :=
  unitRange o.rLevel ∧ unitRange o.rLevelVl ∧ unitRange o.rLevelL ∧
  unitRange o.rLevelH ∧ unitRange o.rLevelVh ∧ unitRange o.rValve ∧
  unitRange o.rLevelStore ∧ unitRange o.rValveStore

/-- An event is valid when its oracles are valid, its tick interval is
nonnegative (the run loop always passes 1.0) and a fill level is
nonnegative (every caller in the repository uses the default 1.0). Valve
ratios are unconstrained: set_valve clamps. -/
def Event.Valid : Event → Prop
  | Event.tick interval os om => 0 ≤ interval ∧ (∀ o ∈ os, o.Valid) ∧ om.Valid
  | Event.setValve _ _ => True
  | Event.fill _ level => 0 ≤ level
  | Event.flush _ => True

/-- The Tango command `Fill` of src/PaintMixingStation.py (lines 114-120):
`self.tank.fill(); return self.tank.get_level()`. The fill uses the
default level 1.0; `r` feeds the `get_level` call (used when the level
sensor is broken). `none` embeds the fill's uncaught ZeroDivisionError
propagating out of the command. -/
def StationFill (t : PaintTank) (r : ℚ) : Option (PaintTank × ℚ) :=
  (t.fill 1).map (fun p => (p.1, p.1.get_level r))

/-- The Tango command `Flush` of src/PaintMixingStation.py (lines
122-128): `self.tank.flush(); return self.tank.get_level()`. -/
def StationFlush (t : PaintTank) (r : ℚ) : PaintTank × ℚ :=
  ((t.flush).1, (t.flush).1.get_level r)

/-- A fixed timestamp for the concrete scenarios below (its value is
irrelevant to every algorithm). -/
def ts00 : Timestamp := ⟨1, 1, 1, 1, 1⟩

/-- An oracle under which nothing random happens: every uniform draw that
feeds a broken-sensor fallback is 0, every random bit false, and every
fault-injection draw is 1, so that no channel breaks
(0.0001 > 1 is false). -/
def noFaultOracle : Oracle :=
  { rLevel := 0, rLevelVl := 0, rLevelL := 0, rLevelH := 0, rLevelVh := 0,
    bitVl := false, bitL := false, bitH := false, bitVh := false,
    rValve := 0, rLevelStore := 0, rValveStore := 0,
    breakDraw := fun _ => 1, ts := ts00 }

/-- One no-fault oracle per source tank. -/
def noFaultOracles : List Oracle :=
  [noFaultOracle, noFaultOracle, noFaultOracle, noFaultOracle, noFaultOracle]

/-- A source-shaped test tank (cyan geometry: capacity 100, outflow 2,
initial mixture 100 liters of cyan) whose current content is `p`. -/
def cyanAt (p : PaintMixture) : PaintTank :=
  { PaintTank.construct "cyan" TANK_VOLUME TANK_OUTFLOW ⟨TANK_VOLUME, 0, 0, 0, 0⟩ ts00 with
    paint := p }

/-- All five pigment components nonnegative. -/
def mixNonneg (p : PaintMixture) : Prop :=
  0 ≤ p.cyan ∧ 0 ≤ p.magenta ∧ 0 ≤ p.yellow ∧ 0 ≤ p.black ∧ 0 ≤ p.white

/-- The per-tank reachability invariant after `k` ticks (`k` counts the
storage updates the tank has gone through): contents and configuration
nonnegative, the level history still 120 entries long with its first
`119 - k` entries carrying the sentinel value 0, and no leak alarm. -/
structure TankInv (t : PaintTank) (k : ℕ) : Prop where
  paintNN : mixNonneg t.paint
  initNN : mixNonneg t.initial_paint
  valveNN : 0 ≤ t.valve_ratio
  volNN : 0 ≤ t.tank_volume
  rateNN : 0 ≤ t.outflow_rate
  histLen : t.level_history.length = 120
  histPre : ∀ p ∈ t.level_history.take (119 - k), p.2 = 0
  alarmFree : alarmsContains t.alarms 1 = false

/-- The network invariant after `k` ticks. -/
def SimInv (s : SimState) (k : ℕ) : Prop :=
  (∀ t ∈ s.sources, TankInv t k) ∧ TankInv s.mixer k

example (c k : ℕ) (hck : ¬ c = k) : (c == k) = false := by simp [hck]

lemma alarmsContains_set (a : AlarmMap) (c : ℕ) (ts : Timestamp) (k : ℕ) :
    alarmsContains (alarmsSet a c ts) k = (alarmsContains a k || (c == k)) := by
  unfold alarmsSet
  split
  · rename_i h
    by_cases hck : c = k
    · subst hck; simp [h]
    · simp [hck]
  · simp [alarmsContains, List.any_append]

lemma alarmsContains_del (a : AlarmMap) (c k : ℕ) :
    alarmsContains (alarmsDel a c) k = (alarmsContains a k && !(c == k)) := by
  by_cases hck : c = k
  · subst hck
    simp only [beq_self_eq_true, Bool.not_true, Bool.and_false]
    unfold alarmsDel alarmsContains
    induction a with
    | nil => rfl
    | cons p rest ih =>
        by_cases hpc : p.1 = c <;> simp [List.filter_cons, hpc, ih]
  · have hckb : (c == k) = false := by simp [hck]
    simp only [hckb, Bool.not_false, Bool.and_true]
    unfold alarmsDel alarmsContains
    induction a with
    | nil => rfl
    | cons p rest ih =>
        by_cases hpc : p.1 = c <;> by_cases hpk : p.1 = k <;>
          simp [List.filter_cons, hpc, hpk, ih] <;>
          first
            | (intro h; exact absurd h hck)
            | (rw [if_neg (fun h => hck h.symm)]
               exact ⟨p.2, by rw [← hpk]; exact List.mem_cons_self _ _⟩)

lemma alarmsContains_append (a : AlarmMap) (c : ℕ) (ts : Timestamp) (k : ℕ) :
    alarmsContains (a ++ [(c, ts)]) k = (alarmsContains a k || (c == k)) := by
  unfold alarmsContains
  simp [List.any_append]

lemma alarmsContains_inflow_fold (ts : Timestamp) (ups : List AlarmMap) (a : AlarmMap)
    {k : ℕ} (hk : ¬ k = 2) :
    alarmsContains (ups.foldl (inflowLoopBody ts) a) k = alarmsContains a k := by
  have e2 : ((2:ℕ) == k) = false := by simp only [beq_eq_false_iff_ne]; omega
  induction ups generalizing a with
  | nil => rfl
  | cons u rest ih =>
      rw [List.foldl_cons, ih]
      unfold inflowLoopBody
      split_ifs <;>
        simp only [alarmsContains_append, alarmsContains_del, e2,
          Bool.or_false, Bool.not_false, Bool.and_true]

lemma conflict_preserves (name : String) (hz vlR lR hR vhR : ℚ) (ups : List AlarmMap)
    (lr : LevelReadouts) (cv : ℚ) (ts : Timestamp) (a : AlarmMap) {k : ℕ}
    (h2 : ¬ k = 2) (h3 : ¬ k = 3) (h4 : ¬ k = 4) (h5 : ¬ k = 5)
    (h6 : ¬ k = 6) (h7 : ¬ k = 7) :
    alarmsContains (update_level_conflict_alarms name hz vlR lR hR vhR ups lr cv ts a) k
      = alarmsContains a k := by
  have e3 : ((3:ℕ) == k) = false := by simp only [beq_eq_false_iff_ne]; omega
  have e4 : ((4:ℕ) == k) = false := by simp only [beq_eq_false_iff_ne]; omega
  have e5 : ((5:ℕ) == k) = false := by simp only [beq_eq_false_iff_ne]; omega
  have e6 : ((6:ℕ) == k) = false := by simp only [beq_eq_false_iff_ne]; omega
  have e7 : ((7:ℕ) == k) = false := by simp only [beq_eq_false_iff_ne]; omega
  have efold : ∀ x : AlarmMap,
      alarmsContains (ups.foldl (inflowLoopBody ts) x) k = alarmsContains x k :=
    fun x => alarmsContains_inflow_fold ts ups x h2
  unfold update_level_conflict_alarms
  simp only [apply_ite (fun m => alarmsContains m k), alarmsContains_set,
    alarmsContains_del, efold, e3, e4, e5, e6, e7,
    Bool.or_false, Bool.not_false, Bool.and_true, ite_self]

lemma ref_preserves (name : String) (lr : LevelReadouts) (ts : Timestamp)
    (a : AlarmMap) {k : ℕ}
    (h8 : ¬ k = 8) (h9 : ¬ k = 9) (h10 : ¬ k = 10) (h11 : ¬ k = 11) :
    alarmsContains (update_level_ref_alarms name lr ts a) k = alarmsContains a k := by
  have e8 : ((8:ℕ) == k) = false := by simp only [beq_eq_false_iff_ne]; omega
  have e9 : ((9:ℕ) == k) = false := by simp only [beq_eq_false_iff_ne]; omega
  have e10 : ((10:ℕ) == k) = false := by simp only [beq_eq_false_iff_ne]; omega
  have e11 : ((11:ℕ) == k) = false := by simp only [beq_eq_false_iff_ne]; omega
  unfold update_level_ref_alarms
  simp only [apply_ite (fun m => alarmsContains m k), alarmsContains_set,
    alarmsContains_del, e8, e9, e10, e11,
    Bool.or_false, Bool.not_false, Bool.and_true, ite_self]

lemma update_alarms_leak (t : PaintTank) (o : Oracle) (ups : List AlarmMap) :
    alarmsContains (t.update_alarms o ups) 1 =
      decide (t.get_level o.rLevel < (t.level_history.headI).2
              ∧ t.get_valve o.rValve = 0) := by
  have hc : ∀ x : AlarmMap,
      alarmsContains (update_level_conflict_alarms t.name (t.level_history.headI).2
        t.very_low_ref t.low_ref t.high_ref t.very_high_ref ups
        (t.read_level_sensors o) (t.get_valve o.rValve) o.ts x) 1 = alarmsContains x 1 :=
    fun x => conflict_preserves _ _ _ _ _ _ _ _ _ _ x
      (by omega) (by omega) (by omega) (by omega) (by omega) (by omega)
  have hr : ∀ x : AlarmMap,
      alarmsContains (update_level_ref_alarms t.name (t.read_level_sensors o) o.ts x) 1
        = alarmsContains x 1 :=
    fun x => ref_preserves _ _ _ x (by omega) (by omega) (by omega) (by omega)
  have hlev : (t.read_level_sensors o).level = t.get_level o.rLevel := rfl
  unfold PaintTank.update_alarms
  simp only [apply_ite (fun m => alarmsContains m 1), alarmsContains_set,
    alarmsContains_del, hc, hr]
  split_ifs with hcond h12 h1 <;> simp_all [hlev]

attribute [irreducible] PaintTank.update_alarms

lemma mixNonneg_volume {p : PaintMixture} (h : mixNonneg p) : 0 ≤ p.volume := by
  obtain ⟨h1, h2, h3, h4, h5⟩ := h
  unfold PaintMixture.volume
  linarith

lemma mixNonneg_empty : mixNonneg PaintMixture.empty := by
  refine ⟨le_refl 0, le_refl 0, le_refl 0, le_refl 0, le_refl 0⟩

lemma mixNonneg_add {p q : PaintMixture} (hp : mixNonneg p) (hq : mixNonneg q) :
    mixNonneg (p.add q) := by
  obtain ⟨p1, p2, p3, p4, p5⟩ := hp
  obtain ⟨q1, q2, q3, q4, q5⟩ := hq
  refine ⟨?_, ?_, ?_, ?_, ?_⟩ <;> simp only [PaintMixture.add] <;> linarith

lemma mixNonneg_scale {p : PaintMixture} {c : ℚ} (hp : mixNonneg p) (hc : 0 ≤ c) :
    mixNonneg (p.scale c) := by
  obtain ⟨p1, p2, p3, p4, p5⟩ := hp
  refine ⟨?_, ?_, ?_, ?_, ?_⟩ <;> simp only [PaintMixture.scale] <;>
    first
      | exact mul_nonneg p1 hc
      | exact mul_nonneg p2 hc
      | exact mul_nonneg p3 hc
      | exact mul_nonneg p4 hc
      | exact mul_nonneg p5 hc

lemma mixNonneg_sub_scale {p : PaintMixture} {c : ℚ} (hp : mixNonneg p)
    (h1 : c ≤ 1) : mixNonneg (p.sub (p.scale c)) := by
  obtain ⟨p1, p2, p3, p4, p5⟩ := hp
  refine ⟨?_, ?_, ?_, ?_, ?_⟩ <;> simp only [PaintMixture.sub, PaintMixture.scale] <;>
    nlinarith

lemma get_level_nonneg {t : PaintTank} {r : ℚ} (hp : mixNonneg t.paint)
    (htv : 0 ≤ t.tank_volume) (hr : 0 ≤ r) : 0 ≤ t.get_level r := by
  unfold PaintTank.get_level
  split
  · exact div_nonneg (mixNonneg_volume hp) htv
  · exact hr

lemma headI_sentinel {l : List (Option Timestamp × ℚ)} (hne : l ≠ [])
    {n : ℕ} (hn : 1 ≤ n) (hpre : ∀ p ∈ l.take n, p.2 = 0) : (l.headI).2 = 0 := by
  cases l with
  | nil => exact absurd rfl hne
  | cons x xs =>
      apply hpre
      cases n with
      | zero => omega
      | succ m => simp [List.take_succ_cons]

lemma update_alarms_leak_free {t : PaintTank} (o : Oracle) (ups : List AlarmMap)
    (hlevel : 0 ≤ t.get_level o.rLevel) (hz : (t.level_history.headI).2 = 0) :
    alarmsContains (t.update_alarms o ups) 1 = false := by
  rw [update_alarms_leak]
  apply decide_eq_false
  rintro ⟨hlt, -⟩
  rw [hz] at hlt
  linarith

lemma hist_step_len {l : List (Option Timestamp × ℚ)} (hlen : l.length = 120)
    (e : Option Timestamp × ℚ) : (l.tail ++ [e]).length = 120 := by
  simp [List.length_tail, hlen]

lemma hist_step_pre {l : List (Option Timestamp × ℚ)} (hlen : l.length = 120)
    {k : ℕ} (hk : k ≤ 118) (hpre : ∀ p ∈ l.take (119 - k), p.2 = 0)
    (e : Option Timestamp × ℚ) :
    ∀ p ∈ (l.tail ++ [e]).take (119 - (k + 1)), p.2 = 0 := by
  have hle : 119 - (k + 1) ≤ l.tail.length := by
    rw [List.length_tail, hlen]; omega
  rw [List.take_append_of_le_length hle]
  cases hl : l with
  | nil => rw [hl] at hlen; simp at hlen
  | cons x xs =>
      intro p hpmem
      apply hpre
      rw [hl]
      have h119 : 119 - k = (119 - (k + 1)) + 1 := by omega
      rw [h119, List.take_succ_cons]
      exact List.mem_cons_of_mem x (by simpa [hl] using hpmem)

lemma hist_headI_zero {l : List (Option Timestamp × ℚ)} (hlen : l.length = 120)
    {k : ℕ} (hk : k ≤ 118) (hpre : ∀ p ∈ l.take (119 - k), p.2 = 0) :
    (l.headI).2 = 0 := by
  have hne : l ≠ [] := by
    intro he
    rw [he] at hlen
    simp at hlen
  exact headI_sentinel hne (by omega) hpre

lemma simulate_timestep_eq (t : PaintTank) (interval : ℚ) (o : Oracle)
    (ups : List AlarmMap) :
    t.simulate_timestep interval o ups =
      (PaintTank.update_storage
        { postPhysics t interval o with
          alarms := (postPhysics t interval o).update_alarms o ups } o,
       outMixture t interval) := rfl

lemma mixNonneg_paintAfterOut {t : PaintTank} (hp : mixNonneg t.paint)
    (hv : 0 ≤ t.valve_ratio) (hor : 0 ≤ t.outflow_rate) {interval : ℚ}
    (hint : 0 ≤ interval) : mixNonneg (paintAfterOut t interval) := by
  have hout : 0 ≤ outflowVolume t interval :=
    mul_nonneg (mul_nonneg hv hor) hint
  unfold paintAfterOut
  split_ifs with hfull
  · exact mixNonneg_empty
  · have hvolpos : 0 < t.paint.volume := lt_of_le_of_lt hout (lt_of_not_ge hfull)
    exact mixNonneg_sub_scale hp
      (le_of_lt ((div_lt_one hvolpos).mpr (lt_of_not_ge hfull)))

lemma mixNonneg_paintAfterClamp {t : PaintTank} (hp : mixNonneg t.paint)
    (hv : 0 ≤ t.valve_ratio) (hor : 0 ≤ t.outflow_rate) (htv : 0 ≤ t.tank_volume)
    {interval : ℚ} (hint : 0 ≤ interval) : mixNonneg (paintAfterClamp t interval) := by
  have hbase := mixNonneg_paintAfterOut hp hv hor hint
  unfold paintAfterClamp
  split_ifs with hclamp
  · exact mixNonneg_scale hbase (div_nonneg htv (mixNonneg_volume hbase))
  · exact hbase

lemma mixNonneg_outMixture {t : PaintTank} (hp : mixNonneg t.paint)
    (hv : 0 ≤ t.valve_ratio) (hor : 0 ≤ t.outflow_rate) {interval : ℚ}
    (hint : 0 ≤ interval) : mixNonneg (outMixture t interval) := by
  have hout : 0 ≤ outflowVolume t interval :=
    mul_nonneg (mul_nonneg hv hor) hint
  unfold outMixture
  split_ifs with hfull
  · exact hp
  · have hvolpos : 0 < t.paint.volume := lt_of_le_of_lt hout (lt_of_not_ge hfull)
    exact mixNonneg_scale hp (div_nonneg hout (le_of_lt hvolpos))

lemma timestep_inv {t : PaintTank} {k : ℕ} (hk : k ≤ 118) {interval : ℚ}
    (hint : 0 ≤ interval) {o : Oracle} (ho : Oracle.Valid o) (ups : List AlarmMap)
    (h : TankInv t k) :
    TankInv (t.simulate_timestep interval o ups).1 (k + 1) ∧
      mixNonneg (t.simulate_timestep interval o ups).2 := by
  obtain ⟨hp, hip, hv, htv, hor, hlen, hpre, hal⟩ := h
  rw [simulate_timestep_eq]
  refine ⟨⟨?_, ?_, ?_, ?_, ?_, ?_, ?_, ?_⟩, mixNonneg_outMixture hp hv hor hint⟩
  · show mixNonneg (paintAfterClamp t interval)
    exact mixNonneg_paintAfterClamp hp hv hor htv hint
  · exact hip
  · exact hv
  · exact htv
  · exact hor
  · show (t.level_history.tail ++ _).length = 120
    exact hist_step_len hlen _
  · show ∀ p ∈ (t.level_history.tail ++ _).take (119 - (k + 1)), p.2 = 0
    exact hist_step_pre hlen hk hpre _
  · show alarmsContains
        ((postPhysics t interval o).update_alarms o ups) 1 = false
    apply update_alarms_leak_free o ups
    · show 0 ≤ (postPhysics t interval o).get_level o.rLevel
      exact get_level_nonneg
        (by rw [show (postPhysics t interval o).paint = paintAfterClamp t interval from rfl]
            exact mixNonneg_paintAfterClamp hp hv hor htv hint)
        (by rw [show (postPhysics t interval o).tank_volume = t.tank_volume from rfl]
            exact htv)
        ho.1.1
    · show ((postPhysics t interval o).level_history.headI).2 = 0
      rw [show (postPhysics t interval o).level_history = t.level_history from rfl]
      exact hist_headI_zero hlen hk hpre

lemma default_oracle_valid : Oracle.Valid (default : Oracle) := by
  have h : unitRange (0 : ℚ) := ⟨le_refl 0, by norm_num⟩
  exact ⟨h, h, h, h, h, h, h, h⟩

lemma headI_valid (os : List Oracle) (h : ∀ o ∈ os, o.Valid) :
    Oracle.Valid os.headI := by
  cases os with
  | nil => exact default_oracle_valid
  | cons o rest => exact h o (List.mem_cons_self o rest)

lemma add_inv {m : PaintTank} {k : ℕ} (hm : TankInv m k) {q : PaintMixture}
    (hq : mixNonneg q) : TankInv (m.add q) k := by
  obtain ⟨hp, hip, hv, htv, hor, hlen, hpre, hal⟩ := hm
  exact ⟨mixNonneg_add hp hq, hip, hv, htv, hor, hlen, hpre, hal⟩

lemma set_valve_inv {t : PaintTank} {k : ℕ} (h : TankInv t k) (x : ℚ) :
    TankInv (t.set_valve x) k := by
  obtain ⟨hp, hip, hv, htv, hor, hlen, hpre, hal⟩ := h
  unfold PaintTank.set_valve
  by_cases hb : "valve_actuator" ∉ t.errors
  · rw [if_pos hb]
    exact ⟨hp, hip, le_min (by norm_num) (le_max_left 0 x), htv, hor, hlen, hpre, hal⟩
  · rw [if_neg hb]
    exact ⟨hp, hip, hv, htv, hor, hlen, hpre, hal⟩

lemma fill_inv {t : PaintTank} {k : ℕ} (h : TankInv t k) {level : ℚ}
    (hlev : 0 ≤ level) {t2 : PaintTank} {v : Option ℚ}
    (hf : t.fill level = some (t2, v)) : TankInv t2 k := by
  obtain ⟨hp, hip, hv, htv, hor, hlen, hpre, hal⟩ := h
  unfold PaintTank.fill at hf
  by_cases hb : "fill_actuator" ∉ t.errors
  · rw [if_pos hb] at hf
    by_cases hvol : t.initial_paint.volume = 0
    · rw [if_pos hvol] at hf
      exact absurd hf (by simp)
    · rw [if_neg hvol] at hf
      simp only [Option.some.injEq, Prod.mk.injEq] at hf
      obtain ⟨hf1, -⟩ := hf
      rw [← hf1]
      exact ⟨mixNonneg_scale hip
               (div_nonneg (mul_nonneg hlev htv) (mixNonneg_volume hip)),
             hip, hv, htv, hor, hlen, hpre, hal⟩
  · rw [if_neg hb] at hf
    simp only [Option.some.injEq, Prod.mk.injEq] at hf
    obtain ⟨hf1, -⟩ := hf
    rw [← hf1]
    exact ⟨hp, hip, hv, htv, hor, hlen, hpre, hal⟩

lemma flush_inv {t : PaintTank} {k : ℕ} (h : TankInv t k) :
    TankInv (t.flush).1 k := by
  obtain ⟨hp, hip, hv, htv, hor, hlen, hpre, hal⟩ := h
  unfold PaintTank.flush
  by_cases hb : "flush_actuator" ∉ t.errors
  · rw [if_pos hb]
    exact ⟨mixNonneg_empty, hip, hv, htv, hor, hlen, hpre, hal⟩
  · rw [if_neg hb]
    exact ⟨hp, hip, hv, htv, hor, hlen, hpre, hal⟩

lemma simulateSources_inv {k : ℕ} (hk : k ≤ 118) {interval : ℚ}
    (hint : 0 ≤ interval) :
    ∀ (srcs : List PaintTank) (os : List Oracle) (mixer : PaintTank),
      (∀ t ∈ srcs, TankInv t k) → (∀ o ∈ os, o.Valid) → TankInv mixer k →
      (∀ t2 ∈ (simulateSources interval srcs os mixer).1, TankInv t2 (k + 1)) ∧
        TankInv (simulateSources interval srcs os mixer).2 k := by
  intro srcs
  induction srcs with
  | nil =>
      intro os mixer _ _ hm
      exact ⟨fun t2 h2 => absurd h2 (List.not_mem_nil t2), hm⟩
  | cons t rest ih =>
      intro os mixer hts hos hm
      have hoH : Oracle.Valid os.headI := headI_valid os hos
      have hstep := timestep_inv hk hint hoH []
        (hts t (List.mem_cons_self t rest))
      have hmix : TankInv (mixer.add (t.simulate_timestep interval os.headI []).2) k :=
        add_inv hm hstep.2
      have hrest := ih os.tail (mixer.add (t.simulate_timestep interval os.headI []).2)
        (fun t2 h2 => hts t2 (List.mem_cons_of_mem t h2))
        (fun o2 ho2 => hos o2 (List.mem_of_mem_tail ho2)) hmix
      unfold simulateSources
      constructor
      · intro t2 h2
        rcases List.mem_cons.mp h2 with h2 | h2
        · rw [h2]
          exact hstep.1
        · exact hrest.1 t2 h2
      · exact hrest.2

lemma simulate_inv {k : ℕ} (hk : k ≤ 118) {interval : ℚ} (hint : 0 ≤ interval)
    {os : List Oracle} (hos : ∀ o ∈ os, o.Valid) {om : Oracle} (hom : Oracle.Valid om)
    {s : SimState} (hs : SimInv s k) :
    SimInv (s.simulate interval os om) (k + 1) := by
  obtain ⟨hsrc, hmix⟩ := hs
  have hwalk := simulateSources_inv hk hint s.sources os s.mixer hsrc hos hmix
  have hmixstep := timestep_inv hk hint hom
    ((simulateSources interval s.sources os s.mixer).1.map PaintTank.alarms) hwalk.2
  exact ⟨hwalk.1, hmixstep.1⟩

lemma applyTank_inv {s : SimState} {k : ℕ} (hs : SimInv s k) {i : ℕ}
    {f : PaintTank → Option PaintTank}
    (hf : ∀ t, TankInv t k → ∀ t2, f t = some t2 → TankInv t2 k)
    {s2 : SimState} (h : s.applyTank i f = some s2) : SimInv s2 k := by
  unfold SimState.applyTank at h
  split_ifs at h with h1 h2
  · cases hfe : f (s.sources.get ⟨i, h1⟩) with
    | none => rw [hfe] at h; exact absurd h (by simp)
    | some t2 =>
        rw [hfe] at h
        simp only [Option.map_some', Option.some.injEq] at h
        rw [← h]
        refine ⟨?_, hs.2⟩
        intro t ht
        rcases List.mem_or_eq_of_mem_set ht with hmem | heq
        · exact hs.1 t hmem
        · rw [heq]
          exact hf _ (hs.1 _ (List.get_mem s.sources i h1)) t2 hfe
  · cases hfe : f s.mixer with
    | none => rw [hfe] at h; exact absurd h (by simp)
    | some m2 =>
        rw [hfe] at h
        simp only [Option.map_some', Option.some.injEq] at h
        rw [← h]
        exact ⟨hs.1, hf _ hs.2 m2 hfe⟩

lemma run_inv : ∀ (events : List Event) (k : ℕ) (s : SimState),
    SimInv s k → (∀ e ∈ events, e.Valid) → k + tickCount events ≤ 119 →
    ∀ s2, s.run events = some s2 → SimInv s2 (k + tickCount events) := by
  intro events
  induction events with
  | nil =>
      intro k s hs _ _ s2 h
      unfold SimState.run at h
      simp only [Option.some.injEq] at h
      rw [← h]
      simpa [tickCount] using hs
  | cons e es ih =>
      intro k s hs hv hle s2 h
      have hev : e.Valid := hv e (List.mem_cons_self e es)
      have hes : ∀ x ∈ es, x.Valid := fun x hx => hv x (List.mem_cons_of_mem e hx)
      unfold SimState.run at h
      cases e with
      | tick interval os om =>
          have htc : tickCount (Event.tick interval os om :: es) = tickCount es + 1 := rfl
          rw [htc] at hle ⊢
          have hstep : SimState.step s (Event.tick interval os om)
              = some (s.simulate interval os om) := rfl
          rw [hstep] at h
          obtain ⟨hint, hos, hom⟩ := hev
          have hk : k ≤ 118 := by omega
          have h2 := ih (k + 1) _ (simulate_inv hk hint hos hom hs) hes
            (by omega) s2 h
          have harith : k + (tickCount es + 1) = (k + 1) + tickCount es := by omega
          rw [harith]
          exact h2
      | setValve i x =>
          have htc : tickCount (Event.setValve i x :: es) = tickCount es := rfl
          rw [htc] at hle ⊢
          have hstep : SimState.step s (Event.setValve i x)
              = s.applyTank i (fun t => some (t.set_valve x)) := rfl
          rw [hstep] at h
          cases happ : s.applyTank i (fun t => some (t.set_valve x)) with
          | none => rw [happ] at h; exact absurd h (by simp)
          | some s1 =>
              rw [happ] at h
              have hs1 : SimInv s1 k := applyTank_inv hs
                (fun t ht t2 hf2 => by
                  simp only [Option.some.injEq] at hf2
                  rw [← hf2]
                  exact set_valve_inv ht x) happ
              exact ih k s1 hs1 hes (by omega) s2 h
      | fill i level =>
          have htc : tickCount (Event.fill i level :: es) = tickCount es := rfl
          rw [htc] at hle ⊢
          have hstep : SimState.step s (Event.fill i level)
              = s.applyTank i (fun t => (t.fill level).map Prod.fst) := rfl
          rw [hstep] at h
          cases happ : s.applyTank i (fun t => (t.fill level).map Prod.fst) with
          | none => rw [happ] at h; exact absurd h (by simp)
          | some s1 =>
              rw [happ] at h
              have hs1 : SimInv s1 k := applyTank_inv hs
                (fun t ht t2 hf2 => by
                  cases hfl : t.fill level with
                  | none => rw [hfl] at hf2; exact absurd hf2 (by simp)
                  | some p =>
                      rw [hfl] at hf2
                      simp only [Option.map_some', Option.some.injEq] at hf2
                      rw [← hf2]
                      exact fill_inv ht hev (show t.fill level = some (p.1, p.2) by
                        rw [hfl])) happ
              exact ih k s1 hs1 hes (by omega) s2 h
      | flush i =>
          have htc : tickCount (Event.flush i :: es) = tickCount es := rfl
          rw [htc] at hle ⊢
          have hstep : SimState.step s (Event.flush i)
              = s.applyTank i (fun t => some (t.flush).1) := rfl
          rw [hstep] at h
          cases happ : s.applyTank i (fun t => some (t.flush).1) with
          | none => rw [happ] at h; exact absurd h (by simp)
          | some s1 =>
              rw [happ] at h
              have hs1 : SimInv s1 k := applyTank_inv hs
                (fun t ht t2 hf2 => by
                  simp only [Option.some.injEq] at hf2
                  rw [← hf2]
                  exact flush_inv ht) happ
              exact ih k s1 hs1 hes (by omega) s2 h

lemma construct_tank_inv (name : String) {volume rate : ℚ} (hv : 0 ≤ volume)
    (hr : 0 ≤ rate) {p : PaintMixture} (hp : mixNonneg p) (ts0 : Timestamp) :
    TankInv (PaintTank.construct name volume rate p ts0) 0 := by
  refine ⟨hp, hp, le_refl 0, hv, hr, ?_, ?_, rfl⟩
  · show (List.replicate 119 ((none : Option Timestamp), (0 : ℚ)) ++ [_]).length = 120
    simp
  · show ∀ q ∈ (List.replicate 119 ((none : Option Timestamp), (0 : ℚ))
        ++ [((some ts0 : Option Timestamp), p.volume / volume)]).take (119 - 0), q.2 = 0
    intro q hq
    rw [List.take_append_of_le_length (by simp)] at hq
    have := List.eq_of_mem_replicate (List.mem_of_mem_take hq)
    rw [this]

lemma construct_sim_inv (ts0 : Timestamp) : SimInv (Simulator.construct ts0) 0 := by
  have hvol : (0 : ℚ) ≤ TANK_VOLUME := by norm_num [TANK_VOLUME]
  have hflow : (0 : ℚ) ≤ TANK_OUTFLOW := by norm_num [TANK_OUTFLOW]
  constructor
  · intro t ht
    unfold Simulator.construct at ht
    simp only [List.mem_cons, List.not_mem_nil, or_false] at ht
    rcases ht with rfl | rfl | rfl | rfl | rfl
    · exact construct_tank_inv _ hvol hflow
        ⟨hvol, le_refl 0, le_refl 0, le_refl 0, le_refl 0⟩ _
    · exact construct_tank_inv _ hvol hflow
        ⟨le_refl 0, hvol, le_refl 0, le_refl 0, le_refl 0⟩ _
    · exact construct_tank_inv _ hvol hflow
        ⟨le_refl 0, le_refl 0, hvol, le_refl 0, le_refl 0⟩ _
    · exact construct_tank_inv _ hvol hflow
        ⟨le_refl 0, le_refl 0, le_refl 0, hvol, le_refl 0⟩ _
    · exact construct_tank_inv _ hvol hflow
        ⟨le_refl 0, le_refl 0, le_refl 0, le_refl 0, hvol⟩ _
  · exact construct_tank_inv _ (by norm_num [BASIN_VOLUME]) (by norm_num [BASIN_OUTFLOW])
      mixNonneg_empty _

/-- C10: in every run from simulator construction consisting of ticks
(with valid random draws and nonnegative intervals) and public mutator
calls, alarm 1 (leak) is present on no tank as long as at most 119 ticks
have been simulated: the oldest level_history entry still holds the
sentinel 0, and no level reading is ever negative, so the
strictly-below-baseline condition cannot hold. -/
theorem C10_no_leak_alarm_first_119_ticks (ts0 : Timestamp) (events : List Event)
    (hval : ∀ e ∈ events, e.Valid) (hticks : tickCount events ≤ 119)
    (s2 : SimState) (hrun : (Simulator.construct ts0).run events = some s2) :
    ∀ t ∈ s2.tanks, alarmsContains t.alarms 1 = false := by
  have h := run_inv events 0 _ (construct_sim_inv ts0) hval (by omega) s2 hrun
  intro t ht
  unfold SimState.tanks at ht
  rcases List.mem_append.mp ht with hmem | hmem
  · exact (h.1 t hmem).alarmFree
  · rw [List.mem_singleton.mp hmem]
    exact h.2.alarmFree

/-- Witness for C10 at the empty run: all hypotheses hold and the
conclusion applies to the freshly constructed simulator. -/
theorem C10_witness :
    (∀ e ∈ ([] : List Event), e.Valid) ∧ tickCount [] ≤ 119 ∧
      ∀ s2, (Simulator.construct ts00).run [] = some s2 →
        ∀ t ∈ s2.tanks, alarmsContains t.alarms 1 = false := by
  refine ⟨fun e he => absurd he (List.not_mem_nil e), by decide, ?_⟩
  intro s2 h
  exact C10_no_leak_alarm_first_119_ticks ts00 []
    (fun e he => absurd he (List.not_mem_nil e)) (by decide) s2 h

lemma get_level_true {t : PaintTank} (h : "level_sensor" ∉ t.errors) (r : ℚ) :
    t.get_level r = t.paint.volume / t.tank_volume := by
  unfold PaintTank.get_level
  rw [if_pos h]

lemma get_valve_true {t : PaintTank} (h : "valve_actuator" ∉ t.errors) (r : ℚ) :
    t.get_valve r = t.valve_ratio := by
  unfold PaintTank.get_valve
  rw [if_pos h]

/-- C5: with no broken fault channels, one alarm update leaves alarm 1
present exactly when the true level is strictly below the oldest
level_history entry and the valve ratio is exactly 0; otherwise the same
update removes a previously present alarm 1. -/
theorem C5_leak_alarm_iff (t : PaintTank) (o : Oracle) (ups : List AlarmMap)
    (herr : t.errors = []) :
    (alarmsContains (t.update_alarms o ups) 1 = true
      ↔ (t.paint.volume / t.tank_volume < (t.level_history.headI).2
         ∧ t.valve_ratio = 0)) := by
  rw [update_alarms_leak]
  rw [get_level_true (by rw [herr]; exact List.not_mem_nil _) o.rLevel]
  rw [get_valve_true (by rw [herr]; exact List.not_mem_nil _) o.rValve]
  exact decide_eq_true_iff

/-- Witness for C5 at a concrete half-full source tank with no faults. -/
theorem C5_witness :
    (cyanAt ⟨50, 0, 0, 0, 0⟩).errors = [] ∧
    (alarmsContains ((cyanAt ⟨50, 0, 0, 0, 0⟩).update_alarms noFaultOracle []) 1 = true
      ↔ ((cyanAt ⟨50, 0, 0, 0, 0⟩).paint.volume / (cyanAt ⟨50, 0, 0, 0, 0⟩).tank_volume
            < ((cyanAt ⟨50, 0, 0, 0, 0⟩).level_history.headI).2
         ∧ (cyanAt ⟨50, 0, 0, 0, 0⟩).valve_ratio = 0)) :=
  ⟨rfl, C5_leak_alarm_iff (cyanAt ⟨50, 0, 0, 0, 0⟩) noFaultOracle [] rfl⟩

/-- C1 evaluated at the failing inputs: with no faults, a source tank at
level 0.5 reads veryLow and low as True (0.5 is compared against the
absolute reference 10 liters, not the fraction 0.1), and a tank at level
0.95 reads high and veryHigh as False (0.95 compared against 80 and 90
liters), while the claim's fraction comparisons say the opposite. -/
theorem C1_threshold_readout_unit_bug :
    (cyanAt ⟨50, 0, 0, 0, 0⟩).get_level 0 = 1/2 ∧
    (cyanAt ⟨50, 0, 0, 0, 0⟩).get_vl_readout 0 false = true ∧
    (cyanAt ⟨50, 0, 0, 0, 0⟩).get_l_readout 0 false = true ∧
    (cyanAt ⟨95, 0, 0, 0, 0⟩).get_level 0 = 19/20 ∧
    (cyanAt ⟨95, 0, 0, 0, 0⟩).get_h_readout 0 false = false ∧
    (cyanAt ⟨95, 0, 0, 0, 0⟩).get_vh_readout 0 false = false ∧
    ¬((1 : ℚ)/2 ≤ 1/10) ∧ ((19 : ℚ)/20 > 9/10) :=
  of_decide_eq_true (by with_unfolding_all rfl)

/-- C9 evaluated at the failing inputs: get_vh_readout ignores its own
broken "vh_sensor" channel (it returns the genuine comparison whatever
bit is drawn) and instead goes random exactly when "h_sensor" is broken
(it returns the drawn bit even though the genuine comparison is False). -/
theorem C9_vh_readout_wrong_channel :
    ({ cyanAt ⟨95, 0, 0, 0, 0⟩ with errors := ["vh_sensor"] } : PaintTank).get_vh_readout 0 true = false ∧
    ({ cyanAt ⟨95, 0, 0, 0, 0⟩ with errors := ["vh_sensor"] } : PaintTank).get_vh_readout 0 false = false ∧
    ({ cyanAt ⟨95, 0, 0, 0, 0⟩ with errors := ["h_sensor"] } : PaintTank).get_vh_readout 0 true = true ∧
    ({ cyanAt ⟨95, 0, 0, 0, 0⟩ with errors := ["h_sensor"] } : PaintTank).get_vh_readout 0 false = false :=
  of_decide_eq_true (by with_unfolding_all rfl)

/-- C4 evaluated at the failing input: the mixer's connected_from loop,
run with the first upstream tank carrying alarm 1 and the others not,
ends with alarm 2 absent (cyan's iteration adds it, magenta's iteration
deletes it again), although an upstream tank does carry alarm 1. -/
theorem C4_uncontrolled_inflow_loop_bug :
    alarmsContains
      (update_level_conflict_alarms "mixer" 0 TANK_VERY_LOW TANK_LOW TANK_HIGH
        TANK_VERY_HIGH [[(1, ts00)], [], [], [], []]
        ⟨3/10, true, true, false, false⟩ 0 ts00 []) 2 = false ∧
    alarmsContains [((1 : ℕ), ts00)] 1 = true :=
  of_decide_eq_true (by with_unfolding_all rfl)

/-- C6 evaluated at the failing input: on the freshly constructed mixer
(whose initial mixture is empty and whose fill actuator is not broken),
fill() divides by the initial mixture's volume 0 and raises; the call
does not complete. -/
theorem C6_mixer_fill_division_by_zero :
    (Simulator.construct ts00).mixer.fill 1 = none ∧
    "fill_actuator" ∉ (Simulator.construct ts00).mixer.errors ∧
    (Simulator.construct ts00).mixer.initial_paint.volume = 0 :=
  of_decide_eq_true (by with_unfolding_all rfl)

/-- Counterexample to C7 as stated: on a freshly constructed source tank,
a completed fill() call's Python return value is None (the body has no
return statement), not the resulting level, and so is flush()'s. -/
theorem C7_counterexample :
    ((cyanAt ⟨100, 0, 0, 0, 0⟩).fill 1).map (fun p => p.2) = some none ∧
    ((cyanAt ⟨100, 0, 0, 0, 0⟩).flush).2 = none :=
  of_decide_eq_true (by with_unfolding_all rfl)

/-- C8 evaluated at the failing input: after one no-fault tick from
construction the cyan tank's alarms dict is nonempty (alarm 9 is present,
a consequence of the unit bug of C1), and get_alarms() raises
AttributeError (embedded `none`) instead of returning any rendering. -/
theorem C8_get_alarms_attribute_error :
    ((Simulator.construct ts00).run [Event.tick 1 noFaultOracles noFaultOracle]).map
        (fun s => (s.sources.headI.alarms.map Prod.fst, s.sources.headI.get_alarms))
      = some ([9], none) :=
  of_decide_eq_true (by with_unfolding_all rfl)

set_option maxRecDepth 4000 in
/-- Counterexample to C3 as stated: in the reachable state after the
no-fault trace (tick, flush cyan, tick), the cyan tank's alarms map
contains alarm 9 (set while full, by the unit bug) and alarm 8 (set when
the flushed tank reads level 0, whose branch returns before the clearing
of alarm 9 is reached) at the same time. -/
theorem C3_counterexample :
    ((Simulator.construct ts00).run
        [Event.tick 1 noFaultOracles noFaultOracle, Event.flush 0,
         Event.tick 1 noFaultOracles noFaultOracle]).map
        (fun s => (alarmsContains s.sources.headI.alarms 8,
                   alarmsContains s.sources.headI.alarms 9))
      = some (true, true) :=
  of_decide_eq_true (by with_unfolding_all rfl)

lemma contains_mono {X a : AlarmMap} (h : List.Sublist X a) {k : ℕ}
    (hk : alarmsContains X k = true) : alarmsContains a k = true := by
  unfold alarmsContains at hk ⊢
  rw [List.any_eq_true] at hk ⊢
  obtain ⟨p, hp, hpk⟩ := hk
  exact ⟨p, h.subset hp, hpk⟩

lemma alarmsSub_del {a X : AlarmMap} {c : ℕ} (h : List.Sublist X a) :
    List.Sublist (alarmsDel X c) a :=
  (List.filter_sublist X).trans h

lemma alarmsSub_ite {a X Y : AlarmMap} {b : Prop} [Decidable b]
    (hX : List.Sublist X a) (hY : List.Sublist Y a) :
    List.Sublist (if b then X else Y) a := by
  split_ifs
  · exact hX
  · exact hY

lemma newcode_resolve {a : AlarmMap} {k j c : ℕ} (hkj : k ≠ j)
    (hk : alarmsContains a k = true ∨ c = k)
    (hj : alarmsContains a j = true ∨ c = j) :
    alarmsContains a k = true ∨ alarmsContains a j = true := by
  rcases hk with hk | rfl
  · exact Or.inl hk
  · rcases hj with hj | rfl
    · exact Or.inr hj
    · exact absurd rfl hkj

/-- C3 amended: a single reference-level alarm update adds at most one
new alarm code to a tank's map — if two distinct codes are both present
after the update, at least one was already present before it. (The
mutual-exclusion reading fails: a stale alarm 9 or 10 survives the
short-circuiting branch that sets 8 or 11, as C3_counterexample shows.) -/
theorem C3_ref_update_adds_at_most_one (name : String) (lr : LevelReadouts)
    (ts : Timestamp) (a : AlarmMap) (k j : ℕ) (hkj : k ≠ j)
    (hk : alarmsContains (update_level_ref_alarms name lr ts a) k = true)
    (hj : alarmsContains (update_level_ref_alarms name lr ts a) j = true) :
    alarmsContains a k = true ∨ alarmsContains a j = true := by
  unfold update_level_ref_alarms at hk hj
  revert hk hj
  split_ifs <;>
    (intro hk hj
     simp only [alarmsContains_set, Bool.or_eq_true, beq_iff_eq] at hk hj) <;>
    first
      | exact Or.inl (contains_mono (by
          repeat first
            | exact List.Sublist.refl _
            | apply alarmsSub_ite
            | apply alarmsSub_del) hk)
      | exact newcode_resolve hkj
          (hk.imp (fun h2 => contains_mono (by
            repeat first
              | exact List.Sublist.refl _
              | apply alarmsSub_ite
              | apply alarmsSub_del) h2) id)
          (hj.imp (fun h2 => contains_mono (by
            repeat first
              | exact List.Sublist.refl _
              | apply alarmsSub_ite
              | apply alarmsSub_del) h2) id)

/-- Witness for the amended C3 at a concrete input: updating a cyan tank
whose map holds alarm 9 with readouts showing level 0 leaves both 8 and 9
present, and the theorem then yields that one of them (here 9) was
already present before the update. -/
theorem C3_witness :
    alarmsContains [((9 : ℕ), ts00)] 8 = true ∨
      alarmsContains [((9 : ℕ), ts00)] 9 = true :=
  C3_ref_update_adds_at_most_one "cyan" ⟨0, true, true, false, false⟩ ts00
    [(9, ts00)] 8 9 (by omega)
    (of_decide_eq_true (by with_unfolding_all rfl))
    (of_decide_eq_true (by with_unfolding_all rfl))

/-- C7 amended: the core fill()/flush() return nothing (Python None); the
resulting level is returned by the device server's Fill/Flush commands,
which call them and then return get_level(). With a working level sensor
and a fillable initial mixture, each command completes and returns the
level of the tank state it just produced. -/
theorem C7_station_commands_return_level (t : PaintTank) (r : ℚ)
    (hsensor : "level_sensor" ∉ t.errors) (hvol : t.initial_paint.volume ≠ 0) :
    (StationFill t r).isSome = true ∧
      (∀ p : PaintTank × ℚ, StationFill t r = some p →
        p.2 = p.1.paint.volume / p.1.tank_volume) ∧
      (StationFlush t r).2
        = (StationFlush t r).1.paint.volume / (StationFlush t r).1.tank_volume := by
  refine ⟨?_, ?_, ?_⟩
  · unfold StationFill PaintTank.fill
    by_cases hb : "fill_actuator" ∉ t.errors
    · rw [if_pos hb, if_neg hvol]
      rfl
    · rw [if_neg hb]
      rfl
  · intro p hp
    unfold StationFill PaintTank.fill at hp
    by_cases hb : "fill_actuator" ∉ t.errors
    · rw [if_pos hb, if_neg hvol] at hp
      simp only [Option.map_some', Option.some.injEq] at hp
      rw [← hp]
      refine get_level_true ?_ r
      exact hsensor
    · rw [if_neg hb] at hp
      simp only [Option.map_some', Option.some.injEq] at hp
      rw [← hp]
      refine get_level_true ?_ r
      exact hsensor
  · unfold StationFlush PaintTank.flush
    by_cases hb : "flush_actuator" ∉ t.errors
    · rw [if_pos hb]
      refine get_level_true ?_ r
      exact hsensor
    · rw [if_neg hb]
      refine get_level_true ?_ r
      exact hsensor

/-- Witness for the amended C7 at the freshly constructed cyan tank. -/
theorem C7_station_witness :
    ("level_sensor" ∉ (cyanAt ⟨100, 0, 0, 0, 0⟩).errors) ∧
    ((cyanAt ⟨100, 0, 0, 0, 0⟩).initial_paint.volume ≠ 0) ∧
    ((StationFill (cyanAt ⟨100, 0, 0, 0, 0⟩) 0).isSome = true ∧
      (∀ p : PaintTank × ℚ, StationFill (cyanAt ⟨100, 0, 0, 0, 0⟩) 0 = some p →
        p.2 = p.1.paint.volume / p.1.tank_volume) ∧
      (StationFlush (cyanAt ⟨100, 0, 0, 0, 0⟩) 0).2
        = (StationFlush (cyanAt ⟨100, 0, 0, 0, 0⟩) 0).1.paint.volume
            / (StationFlush (cyanAt ⟨100, 0, 0, 0, 0⟩) 0).1.tank_volume) :=
  ⟨of_decide_eq_true (by with_unfolding_all rfl),
   of_decide_eq_true (by with_unfolding_all rfl),
   C7_station_commands_return_level (cyanAt ⟨100, 0, 0, 0, 0⟩) 0
     (of_decide_eq_true (by with_unfolding_all rfl))
     (of_decide_eq_true (by with_unfolding_all rfl))⟩

lemma st_fst_paint (t : PaintTank) (interval : ℚ) (o : Oracle) (ups : List AlarmMap) :
    ((t.simulate_timestep interval o ups).1).paint = paintAfterClamp t interval := rfl

lemma st_fst_tank_volume (t : PaintTank) (interval : ℚ) (o : Oracle) (ups : List AlarmMap) :
    ((t.simulate_timestep interval o ups).1).tank_volume = t.tank_volume := rfl

lemma st_snd (t : PaintTank) (interval : ℚ) (o : Oracle) (ups : List AlarmMap) :
    (t.simulate_timestep interval o ups).2 = outMixture t interval := rfl

/-- C2: from the freshly constructed simulator, whatever this tick's
random draws are, setting the cyan valve to 1.0 and simulating one
1-second tick leaves the cyan tank holding exactly 98 liters of cyan
(true level exactly 0.98) and the mixer holding exactly 2 liters of pure
cyan. -/
theorem C2_cyan_one_tick (ts0 : Timestamp) (os : List Oracle) (om : Oracle) :
    ((Simulator.construct ts0).run [Event.setValve 0 1, Event.tick 1 os om]).map
        (fun s => (s.sources.headI.paint,
                   s.sources.headI.paint.volume / s.sources.headI.tank_volume,
                   s.mixer.paint))
      = some (⟨98, 0, 0, 0, 0⟩, 49/50, ⟨2, 0, 0, 0, 0⟩) := by
  rw [show (Simulator.construct ts0).run [Event.setValve 0 1, Event.tick 1 os om]
      = some (SimState.simulate
          { sources :=
              [(PaintTank.construct "cyan" TANK_VOLUME TANK_OUTFLOW ⟨TANK_VOLUME, 0, 0, 0, 0⟩ ts0).set_valve 1,
               PaintTank.construct "magenta" TANK_VOLUME TANK_OUTFLOW ⟨0, TANK_VOLUME, 0, 0, 0⟩ ts0,
               PaintTank.construct "yellow" TANK_VOLUME TANK_OUTFLOW ⟨0, 0, TANK_VOLUME, 0, 0⟩ ts0,
               PaintTank.construct "black" TANK_VOLUME TANK_OUTFLOW ⟨0, 0, 0, TANK_VOLUME, 0⟩ ts0,
               PaintTank.construct "white" TANK_VOLUME TANK_OUTFLOW ⟨0, 0, 0, 0, TANK_VOLUME⟩ ts0]
            mixer := PaintTank.construct "mixer" BASIN_VOLUME BASIN_OUTFLOW PaintMixture.empty ts0
            sim_time := 0 } 1 os om) from rfl]
  simp only [Option.map_some', SimState.simulate, simulateSources, List.headI,
    st_fst_paint, st_fst_tank_volume, st_snd]
  norm_num [paintAfterClamp, paintAfterOut, outflowVolume, outMixture,
    PaintTank.set_valve, PaintTank.construct, PaintTank.add, PaintMixture.volume,
    PaintMixture.scale, PaintMixture.sub, PaintMixture.add, PaintMixture.empty,
    TANK_VOLUME, TANK_OUTFLOW, BASIN_VOLUME, BASIN_OUTFLOW]
